import Mathlib

/-!
Shallow embedding of the tool-augmented streaming conversation orchestrator
of the skilsmisse_jus repository, together with its search / formatting
helpers, and proofs of the specification claims about them.

Sources embedded:
* src/web/lib/serper.ts — `performSearch`, `searchLegalSources` (the copy that
  swallows provider errors into an empty result list);
* src/unnamed/part_000 — the second copy of the same two functions, which
  instead throws on a non-success HTTP status;
* src/unnamed/part_004 — the chat route: the `POST` transport endpoint and the
  recursive `consumeStream` orchestrator with its inline tool-call dispatcher.

External collaborators (the fetch network call, `JSON.parse`, the hosted
conversation service minting threads and resumed event streams) are modelled
as explicit oracle parameters; JavaScript truthiness of optional strings
(`undefined` and `""` are falsy) is modelled explicitly wherever the source
relies on it.  Side effects that the claims talk about (network requests
issued, threads created) are made visible as extra result components.
-/

namespace SkilsmisseJus

/-! ### Search layer (src/web/lib/serper.ts and src/unnamed/part_000) -/

/-- One web search result, the `SearchResult` interface of serper.ts. -/
structure SearchResult where
  title : String
  link : String
  snippet : String
deriving Repr, DecidableEq

/-- The request `performSearch` sends to the provider: url, `X-API-KEY`
header, and the JSON body fields `q` and `num`. -/
structure SerperRequest where
  url : String
  apiKey : String
  q : String
  num : Nat
deriving Repr, DecidableEq

/-- The provider's HTTP response as `performSearch` observes it:
`response.ok`, `response.status`, `response.statusText`, the raw body text
(read on the error path), and the outcome of `response.json()` followed by
the `.organic` field access — `Except.error` models a body that fails JSON
parsing, `Except.ok none` a parsed body with no `organic` field. -/
structure SerperResponse where
  ok : Bool
  status : Nat
  statusText : String
  bodyText : String
  organic : Except String (Option (List SearchResult))

/-- Ambient state of a search call: `process.env.SERPER_API_KEY` (with `none`
for unset) and the `fetch` oracle, whose `Except.error` models a rejected
network call. -/
structure SearchEnv where
  apiKey : Option String
  fetch : SerperRequest → Except String SerperResponse

/-- The request built by the src/web/lib/serper.ts copy of `performSearch`:
the query is narrowed with the fixed site-restriction clause and `num: 20`
is requested. -/
def serperRequest (apiKey query : String) : SerperRequest :=
  { url := "https://google.serper.dev/search"
    apiKey := apiKey
    q := "site:jusinfo.no OR site:lovdata.no " ++ query
    num := 20 }

/-- The request built by the src/unnamed/part_000 copy: a different
site-restriction clause and `num: 15`. -/
def serperRequestV0 (apiKey query : String) : SerperRequest :=
  { url := "https://google.serper.dev/search"
    apiKey := apiKey
    q := "site:lovdata.no OR site:SNL.no OR site:jusinfo.no " ++ query
    num := 15 }

/-- `performSearch` of src/web/lib/serper.ts.  Besides the result list it
returns the list of network requests issued, so that "no network call" is a
provable statement.  The whole fetch/parse sequence sits inside a
`try`/`catch` that converts every failure into an empty result list:
a rejected fetch, a non-success status (the `throw` is caught by the same
`catch`), and a body that fails JSON parsing all yield `[]`;
`result.organic || []` yields `[]` when the field is absent. -/
def performSearch (env : SearchEnv) (query : String) :
    List SearchResult × List SerperRequest :=
  match env.apiKey with
  | none => ([], [])
  | some apiKey =>
    if apiKey = "" then ([], [])
    else
      let req := serperRequest apiKey query
      match env.fetch req with
      | Except.error _ => ([], [req])
      | Except.ok response =>
        if response.ok = false then ([], [req])
        else
          match response.organic with
          | Except.error _ => ([], [req])
          | Except.ok organic => (organic.getD [], [req])

/-- `performSearch` of src/unnamed/part_000.  No `try`/`catch`: a rejected
fetch or malformed body propagates, and a non-success status throws
`Serper API error: {status} {statusText} - {body}`. -/
def performSearchV0 (env : SearchEnv) (query : String) :
    Except String (List SearchResult) × List SerperRequest :=
  match env.apiKey with
  | none => (Except.ok [], [])
  | some apiKey =>
    if apiKey = "" then (Except.ok [], [])
    else
      let req := serperRequestV0 apiKey query
      match env.fetch req with
      | Except.error e => (Except.error e, [req])
      | Except.ok response =>
        if response.ok = false then
          (Except.error ("Serper API error: " ++ toString response.status ++ " "
            ++ response.statusText ++ " - " ++ response.bodyText), [req])
        else
          match response.organic with
          | Except.error e => (Except.error e, [req])
          | Except.ok organic => (Except.ok (organic.getD []), [req])

/-- The three-line block both copies of `searchLegalSources` render for one
result (the body of the `.map` callback). -/
def resultBlock (item : SearchResult) : String :=
  "Title: " ++ item.title ++ "\nLink: " ++ item.link ++ "\nSnippet: " ++ item.snippet

/-- JavaScript `Array.prototype.join(sep)`: empty array gives `""`, a
singleton gives its element, otherwise elements interleaved with `sep`. -/
def joinSep (sep : String) : List String → String
  | [] => ""
  | [a] => a
  | a :: b :: rest => a ++ sep ++ joinSep sep (b :: rest)

/-- The sentinel of the src/web/lib/serper.ts copy for an empty result list. -/
def noResultsSentinel : String :=
  "No results found on jusinfo.no or lovdata.no for this query."

/-- The sentinel of the src/unnamed/part_000 copy for an empty result list. -/
def noResultsSentinelV0 : String :=
  "No results found on lovdata.no or SNL.no or wikipedia.org for this query."

/-- The formatting step of `searchLegalSources` (src/web/lib/serper.ts):
blocks joined with blank-line separators when non-empty, the sentinel
otherwise. -/
def formatResults (results : List SearchResult) : String :=
  if results.length > 0 then joinSep "\n\n" (results.map resultBlock)
  else noResultsSentinel

/-- The formatting step of the src/unnamed/part_000 copy; only the sentinel
text differs. -/
def formatResultsV0 (results : List SearchResult) : String :=
  if results.length > 0 then joinSep "\n\n" (results.map resultBlock)
  else noResultsSentinelV0

/-- `searchLegalSources` of src/web/lib/serper.ts: search then format,
propagating the list of issued requests. -/
def searchLegalSources (env : SearchEnv) (query : String) :
    String × List SerperRequest :=
  let r := performSearch env query
  (formatResults r.1, r.2)

/-- `searchLegalSources` of src/unnamed/part_000: its `performSearch` can
throw, and the exception propagates through the formatting layer. -/
def searchLegalSourcesV0 (env : SearchEnv) (query : String) :
    Except String String × List SerperRequest :=
  match performSearchV0 env query with
  | (Except.error e, reqs) => (Except.error e, reqs)
  | (Except.ok results, reqs) => (Except.ok (formatResultsV0 results), reqs)

/-! ### Streaming orchestrator (src/unnamed/part_004, `consumeStream`) -/

/-- The `text` member of a delta content item: its `value` is optional. -/
structure TextValue where
  value : Option String
deriving Repr, DecidableEq

/-- One item of `event.data.delta.content`: a `type` tag and an optional
`text` member, as read by `content?.type === 'text' && content.text?.value`. -/
structure DeltaContent where
  type : String
  text : Option TextValue
deriving Repr, DecidableEq

/-- The `function` member of a tool call: name and serialized arguments. -/
structure ToolFunction where
  name : String
  arguments : String
deriving Repr, DecidableEq

/-- One pending tool call request `(call id, tool name, serialized args)`. -/
structure ToolCall where
  id : String
  function : ToolFunction
deriving Repr, DecidableEq

/-- One entry of the `tool_outputs` batch submitted to resume a run. -/
structure ToolOutput where
  tool_call_id : String
  output : String
deriving Repr, DecidableEq

/-- An event of a run's event stream, split exactly along the two
`event.event` values `consumeStream` matches on; every other event name is
a `lifecycle` event the loop ignores.  `messageDelta` carries
`event.data.delta.content` (an optional array); `requiresAction` carries
`event.data.id` and `event.data.required_action?.submit_tool_outputs.tool_calls`
(`none` when `required_action` is absent). -/
inductive RunEvent where
  | messageDelta (content : Option (List DeltaContent))
  | requiresAction (runId : String) (toolCalls : Option (List ToolCall))
  | lifecycle (event : String)
deriving Repr, DecidableEq

/-- The text fragment a delta event contributes, mirroring
`const content = event.data.delta.content?.[0];
 if (content?.type === 'text' && content.text?.value) enqueue(...)`.
JavaScript truthiness makes an absent array, an empty array, a non-text
item, an absent `text`, an absent `value` and the empty-string value all
skip the enqueue. -/
def deltaValue (content : Option (List DeltaContent)) : Option String :=
  match content.bind List.head? with
  | none => none
  | some c =>
    if c.type = "text" then
      match c.text with
      | none => none
      | some t =>
        match t.value with
        | none => none
        | some v => if v = "" then none else some v
    else none

/-- The result of `JSON.parse` on a tool call's arguments, when it does not
throw: the parsed object's optional `query` field. -/
structure ParsedArgs where
  query : Option String
deriving Repr, DecidableEq

/-- Oracles the inline dispatcher of `consumeStream` uses: `jsonParse`
models `JSON.parse` (returning `none` when it throws), and `search` models
`await searchLegalSources(args.query)` — the awaited string result of the
embedded search pipeline, applied to the possibly-absent `query` field. -/
structure DispatchEnv where
  jsonParse : String → Option ParsedArgs
  search : Option String → String

/-- The body of the `toolCalls.map` callback inside `consumeStream`: for the
single recognized tool `search_legal`, a parse failure yields the fixed
error output and a parse success yields the search result; any other tool
name yields the fixed unknown-tool error output.  Every branch returns an
output carrying the call's own id. -/
def dispatchToolCall (env : DispatchEnv) (tc : ToolCall) : ToolOutput :=
  if tc.function.name = "search_legal" then
    match env.jsonParse tc.function.arguments with
    | none => { tool_call_id := tc.id, output := "Error: Invalid arguments." }
    | some args => { tool_call_id := tc.id, output := env.search args.query }
  else { tool_call_id := tc.id, output := "Error: Unknown tool." }

/-- The hosted conversation service's resumption oracle:
`submitToolOutputsStream(threadId, runId, { tool_outputs })` as the event
stream it returns. -/
structure RunService where
  submit : String → String → List ToolOutput → List RunEvent

/-- What one `consumeStream` call does, made observable: the strings pushed
to the response stream controller in order, and the `(runId, tool_outputs)`
batches submitted to the service in order. -/
structure StreamResult where
  chunks : List String
  submissions : List (String × List ToolOutput)
deriving Repr, DecidableEq

/-- One pass of the `for await` loop of `consumeStream` over the events of a
single stream, parameterized by the `resume` continuation that consumes the
nested stream obtained from a batch submission.  A well-formed delta is
enqueued; a requires-action event with present tool calls dispatches all of
them (`Promise.all` keeps the outputs in request order), records the batch
submission, splices in the nested stream's result, and the loop then
continues with the remaining events of the current stream; every other
event is ignored. -/
def consumeEvents (env : DispatchEnv)
    (resume : String → List ToolOutput → StreamResult) :
    List RunEvent → StreamResult
  | [] => { chunks := [], submissions := [] }
  | RunEvent.messageDelta content :: rest =>
    let r := consumeEvents env resume rest
    match deltaValue content with
    | some v => { chunks := v :: r.chunks, submissions := r.submissions }
    | none => r
  | RunEvent.requiresAction runId toolCalls :: rest =>
    let r := consumeEvents env resume rest
    match toolCalls with
    | none => r
    | some tcs =>
      let outputs := tcs.map (dispatchToolCall env)
      let inner := resume runId outputs
      { chunks := inner.chunks ++ r.chunks
        submissions := (runId, outputs) :: (inner.submissions ++ r.submissions) }
  | RunEvent.lifecycle _ :: rest => consumeEvents env resume rest

/-- `consumeStream` of src/unnamed/part_004.  The source recurses into the
stream returned by each batch submission with no bound; the embedding makes
that recursion well-founded with a `fuel` bound on the resumption depth
(at depth `0` a nested stream contributes nothing, but the submission
itself — which the source performs before recursing — is still recorded). -/
def consumeStream (env : DispatchEnv) (svc : RunService) (threadId : String) :
    Nat → List RunEvent → StreamResult
  | 0, events => consumeEvents env (fun _ _ => { chunks := [], submissions := [] }) events
  | Nat.succ fuel, events =>
    consumeEvents env
      (fun runId outputs =>
        consumeStream env svc threadId fuel (svc.submit threadId runId outputs))
      events

/-- Specification-side view of one stream pass: the events of the stream in
arrival order, with each resumed nested stream spliced in right after the
requires-action event that triggered it. -/
def flattenEvents (env : DispatchEnv)
    (resume : String → List ToolOutput → List RunEvent) :
    List RunEvent → List RunEvent
  | [] => []
  | RunEvent.messageDelta content :: rest =>
    RunEvent.messageDelta content :: flattenEvents env resume rest
  | RunEvent.requiresAction runId toolCalls :: rest =>
    match toolCalls with
    | none => RunEvent.requiresAction runId none :: flattenEvents env resume rest
    | some tcs =>
      RunEvent.requiresAction runId (some tcs)
        :: (resume runId (tcs.map (dispatchToolCall env)) ++ flattenEvents env resume rest)
  | RunEvent.lifecycle e :: rest =>
    RunEvent.lifecycle e :: flattenEvents env resume rest

/-- Specification-side view of a whole run: the overall arrival order of all
events across all recursive resumptions, to the same resumption depth as
`consumeStream`. -/
def flattenRun (env : DispatchEnv) (svc : RunService) (threadId : String) :
    Nat → List RunEvent → List RunEvent
  | 0, events => flattenEvents env (fun _ _ => []) events
  | Nat.succ fuel, events =>
    flattenEvents env
      (fun runId outputs =>
        flattenRun env svc threadId fuel (svc.submit threadId runId outputs))
      events

/-- The text fragment an event delivers to the sink, if any: only a
well-formed text delta delivers one. -/
def eventDelta : RunEvent → Option String
  | RunEvent.messageDelta content => deltaValue content
  | _ => none

/-- A well-formed text-delta event carrying the fragment `v`. -/
def textDeltaEvent (v : String) : RunEvent :=
  RunEvent.messageDelta (some [{ type := "text", text := some { value := some v } }])

/-! ### Transport endpoint (src/unnamed/part_004, `POST`) -/

/-- The parsed JSON request body `{ message, threadId }` of the chat route;
either field may be absent. -/
structure ChatRequest where
  message : Option String
  threadId : Option String
deriving Repr, DecidableEq

/-- The chat route's response: a JSON error with an HTTP status, or a
streamed response whose `x-thread-id` header carries the thread identifier
and whose body is the ordered chunks the orchestrator enqueued. -/
inductive ChatResponse where
  | jsonError (error : String) (status : Nat)
  | stream (threadIdHeader : String) (chunks : List String)
deriving Repr, DecidableEq

/-- Ambient state of the chat route: `process.env.ASSISTANT_ID`, the thread
id `openai.beta.threads.create()` would mint, the event stream
`runs.stream(threadId, { assistant_id })` returns, the service resumption
oracle, the dispatcher oracles, and the resumption-depth bound of the
embedding. -/
structure ChatEnv where
  assistantId : Option String
  freshThreadId : String
  runStream : String → String → List RunEvent
  dispatchEnv : DispatchEnv
  svc : RunService
  fuel : Nat

/-- `POST` of src/unnamed/part_004.  The second component counts the
threads created during the call (`openai.beta.threads.create()` calls), so
thread reuse is a provable statement.  `!message`, `!assistantId` and
`!threadId` are JavaScript truthiness tests: the absent value and the empty
string both fail them. -/
def POST (env : ChatEnv) (req : ChatRequest) : ChatResponse × Nat :=
  match req.message with
  | none => (ChatResponse.jsonError "Message is required" 400, 0)
  | some m =>
    if m = "" then (ChatResponse.jsonError "Message is required" 400, 0)
    else
      match env.assistantId with
      | none => (ChatResponse.jsonError "Assistant ID not configured" 500, 0)
      | some assistantId =>
        if assistantId = "" then
          (ChatResponse.jsonError "Assistant ID not configured" 500, 0)
        else
          let idAndCount : String × Nat :=
            match req.threadId with
            | none => (env.freshThreadId, 1)
            | some t => if t = "" then (env.freshThreadId, 1) else (t, 0)
          let threadId := idAndCount.1
          let events := env.runStream threadId assistantId
          let result := consumeStream env.dispatchEnv env.svc threadId env.fuel events
          (ChatResponse.stream threadId result.chunks, idAndCount.2)

/-! ### Helper lemmas and concrete fixtures -/

/-- A string of positive length is not the empty string. -/
theorem ne_empty_of_length_pos {s : String} (h : 0 < s.length) : s ≠ "" := by
  intro he
  rw [he] at h
  exact absurd h (by decide)

/-- The first joined element's length bounds the join from below. -/
theorem length_le_joinSep (sep a : String) (rest : List String) :
    a.length ≤ (joinSep sep (a :: rest)).length := by
  cases rest with
  | nil => simp [joinSep]
  | cons b t =>
    simp only [joinSep, String.length_append]
    omega

/-- Every rendered block starts with the seven characters of `"Title: "`. -/
theorem resultBlock_length (r : SearchResult) : 7 ≤ (resultBlock r).length := by
  have h7 : ("Title: " : String).length = 7 := rfl
  simp only [resultBlock, String.length_append, h7]
  omega

/-- The formatted text of the src/web/lib/serper.ts copy is never empty. -/
theorem formatResults_ne_empty (results : List SearchResult) :
    formatResults results ≠ "" := by
  cases results with
  | nil => decide
  | cons r t =>
    apply ne_empty_of_length_pos
    have h1 : 7 ≤ (resultBlock r).length := resultBlock_length r
    have h2 : (resultBlock r).length
        ≤ (joinSep "\n\n" (resultBlock r :: t.map resultBlock)).length :=
      length_le_joinSep "\n\n" (resultBlock r) (t.map resultBlock)
    have h3 : formatResults (r :: t)
        = joinSep "\n\n" (resultBlock r :: t.map resultBlock) := by
      simp [formatResults]
    rw [h3]
    omega

/-- The formatted text of the src/unnamed/part_000 copy is never empty. -/
theorem formatResultsV0_ne_empty (results : List SearchResult) :
    formatResultsV0 results ≠ "" := by
  cases results with
  | nil => decide
  | cons r t =>
    apply ne_empty_of_length_pos
    have h1 : 7 ≤ (resultBlock r).length := resultBlock_length r
    have h2 : (resultBlock r).length
        ≤ (joinSep "\n\n" (resultBlock r :: t.map resultBlock)).length :=
      length_le_joinSep "\n\n" (resultBlock r) (t.map resultBlock)
    have h3 : formatResultsV0 (r :: t)
        = joinSep "\n\n" (resultBlock r :: t.map resultBlock) := by
      simp [formatResultsV0]
    rw [h3]
    omega

/-- A fetch oracle for scenarios in which no request should be issued. -/
def fetchUnused : SerperRequest → Except String SerperResponse :=
  fun _ => Except.error "network unreachable"

/-- A search environment with no configured credential. -/
def noKeyEnv : SearchEnv :=
  { apiKey := none, fetch := fetchUnused }

/-- A provider response with a non-success HTTP status. -/
def badStatusResponse : SerperResponse :=
  { ok := false, status := 500, statusText := "Internal Server Error"
    bodyText := "boom", organic := Except.ok none }

/-- A search environment whose provider always answers with a non-success
status. -/
def badStatusEnv : SearchEnv :=
  { apiKey := some "k", fetch := fun _ => Except.ok badStatusResponse }

/-! ### Claims about the search layer -/

/-- C4: the formatting function applied to an empty result list returns the
fixed "no results found" sentinel string (in each copy, its own fixed
sentinel); applied to a non-empty list it returns the three-line
`Title/Link/Snippet` blocks joined with blank-line separators in
provider-returned order; and for a single result it returns exactly the one
block with no trailing separator. -/
theorem formatContract :
    formatResults [] = noResultsSentinel
    ∧ formatResultsV0 [] = noResultsSentinelV0
    ∧ (∀ r : SearchResult,
        formatResults [r]
          = "Title: " ++ r.title ++ "\nLink: " ++ r.link ++ "\nSnippet: " ++ r.snippet)
    ∧ (∀ r : SearchResult,
        formatResultsV0 [r]
          = "Title: " ++ r.title ++ "\nLink: " ++ r.link ++ "\nSnippet: " ++ r.snippet)
    ∧ (∀ r s : SearchResult,
        formatResults [r, s] = resultBlock r ++ "\n\n" ++ resultBlock s)
    ∧ (∀ results : List SearchResult, results ≠ [] →
        formatResults results = joinSep "\n\n" (results.map resultBlock)) := by
  refine ⟨rfl, rfl, fun r => rfl, fun r => rfl, fun r s => rfl, ?_⟩
  intro results h
  cases results with
  | nil => exact absurd rfl h
  | cons r t => simp [formatResults]

/-- Witness for C4 at a concrete result. -/
theorem formatContract_witness :
    formatResults [{ title := "T", link := "L", snippet := "S" }]
      = "Title: " ++ "T" ++ "\nLink: " ++ "L" ++ "\nSnippet: " ++ "S"
    ∧ formatResults [{ title := "T", link := "L", snippet := "S" }]
      = joinSep "\n\n"
          ([({ title := "T", link := "L", snippet := "S" } : SearchResult)].map resultBlock) :=
  ⟨formatContract.2.2.1 { title := "T", link := "L", snippet := "S" },
   formatContract.2.2.2.2.2 [{ title := "T", link := "L", snippet := "S" }] (by simp)⟩

/-- C5: with no configured provider credential (unset, or the falsy empty
string), both copies of the search function return an empty result list —
no error — and issue no network request, so the formatting layer produces
exactly the sentinel, the same as for "no matches". -/
theorem searchWithoutCredential (env : SearchEnv) (query : String)
    (hkey : env.apiKey = none ∨ env.apiKey = some "") :
    performSearch env query = ([], [])
    ∧ performSearchV0 env query = (Except.ok [], [])
    ∧ searchLegalSources env query = (noResultsSentinel, [])
    ∧ searchLegalSourcesV0 env query = (Except.ok noResultsSentinelV0, []) := by
  rcases hkey with h | h <;>
    simp [performSearch, performSearchV0, searchLegalSources, searchLegalSourcesV0,
      formatResults, formatResultsV0, h]

/-- Witness for C5: the credential-free environment on a concrete query. -/
theorem searchWithoutCredential_witness :
    performSearch noKeyEnv "gjeld" = ([], [])
    ∧ performSearchV0 noKeyEnv "gjeld" = (Except.ok [], [])
    ∧ searchLegalSources noKeyEnv "gjeld" = (noResultsSentinel, [])
    ∧ searchLegalSourcesV0 noKeyEnv "gjeld" = (Except.ok noResultsSentinelV0, []) :=
  searchWithoutCredential noKeyEnv "gjeld" (Or.inl rfl)

/-- C8: the src/web/lib/serper.ts copy of `performSearch` never throws —
its embedding is total into a plain result list — and every provider error
path (rejected fetch, non-success status, malformed JSON body, missing
`organic` field) yields the empty list, so the chat-path dispatch never
fails a batch over a provider error; the src/unnamed/part_000 copy instead
throws on a non-success status. -/
theorem performSearchErrorPolicy (env : SearchEnv) (query apiKey : String)
    (hkey : env.apiKey = some apiKey) (hkey0 : apiKey ≠ "") :
    (∀ e, env.fetch (serperRequest apiKey query) = Except.error e →
        performSearch env query = ([], [serperRequest apiKey query]))
    ∧ (∀ resp, env.fetch (serperRequest apiKey query) = Except.ok resp →
        resp.ok = false →
        performSearch env query = ([], [serperRequest apiKey query]))
    ∧ (∀ resp e, env.fetch (serperRequest apiKey query) = Except.ok resp →
        resp.ok = true → resp.organic = Except.error e →
        performSearch env query = ([], [serperRequest apiKey query]))
    ∧ (∀ resp, env.fetch (serperRequest apiKey query) = Except.ok resp →
        resp.ok = true → resp.organic = Except.ok none →
        performSearch env query = ([], [serperRequest apiKey query]))
    ∧ (∀ resp, env.fetch (serperRequestV0 apiKey query) = Except.ok resp →
        resp.ok = false →
        (performSearchV0 env query).1
          = Except.error ("Serper API error: " ++ toString resp.status ++ " "
              ++ resp.statusText ++ " - " ++ resp.bodyText)) := by
  refine ⟨?_, ?_, ?_, ?_, ?_⟩
  · intro e hf
    simp [performSearch, hkey, hkey0, hf]
  · intro resp hf hok
    simp [performSearch, hkey, hkey0, hf, hok]
  · intro resp e hf hok horg
    simp [performSearch, hkey, hkey0, hf, hok, horg]
  · intro resp hf hok horg
    simp [performSearch, hkey, hkey0, hf, hok, horg]
  · intro resp hf hok
    simp [performSearchV0, hkey, hkey0, hf, hok]

/-- Witness for C8: a concrete non-success provider response is swallowed
into an empty list by the web copy. -/
theorem performSearchErrorPolicy_witness :
    performSearch badStatusEnv "gjeld" = ([], [serperRequest "k" "gjeld"]) :=
  (performSearchErrorPolicy badStatusEnv "gjeld" "k" rfl (by decide)).2.1
    badStatusResponse rfl rfl

/-- C10: for every result list, empty or not, `searchLegalSources` returns a
non-empty string — the joined blocks or the sentinel — so the output text
submitted for a recognized tool call is never the empty string (in both
copies; for the throwing copy, whenever it returns at all). -/
theorem formattedOutputNonempty :
    (∀ results : List SearchResult, formatResults results ≠ "")
    ∧ (∀ results : List SearchResult, formatResultsV0 results ≠ "")
    ∧ (∀ (env : SearchEnv) (query : String), (searchLegalSources env query).1 ≠ "")
    ∧ (∀ (env : SearchEnv) (query out : String) (reqs : List SerperRequest),
        searchLegalSourcesV0 env query = (Except.ok out, reqs) → out ≠ "") := by
  refine ⟨formatResults_ne_empty, formatResultsV0_ne_empty, ?_, ?_⟩
  · intro env query
    exact formatResults_ne_empty _
  · intro env query out reqs h
    rcases hps : performSearchV0 env query with ⟨r, reqs'⟩
    cases r with
    | error e => simp [searchLegalSourcesV0, hps] at h
    | ok results =>
      simp [searchLegalSourcesV0, hps] at h
      rw [← h.1]
      exact formatResultsV0_ne_empty results

/-- Witness for C10 at a concrete credential-free run of the throwing copy. -/
theorem formattedOutputNonempty_witness : noResultsSentinelV0 ≠ "" :=
  formattedOutputNonempty.2.2.2 noKeyEnv "gjeld" noResultsSentinelV0 [] rfl

/-! ### Helper lemmas and fixtures for the orchestrator -/

/-- Every branch of the dispatcher returns an output carrying the call's own
id. -/
theorem dispatchToolCall_id (env : DispatchEnv) (tc : ToolCall) :
    (dispatchToolCall env tc).tool_call_id = tc.id := by
  simp only [dispatchToolCall]
  split
  · split <;> rfl
  · rfl

/-- The ids of a dispatched batch are exactly the requested call ids, in
request order. -/
theorem dispatch_map_ids (env : DispatchEnv) (tcs : List ToolCall) :
    (tcs.map (dispatchToolCall env)).map ToolOutput.tool_call_id
      = tcs.map ToolCall.id := by
  induction tcs with
  | nil => rfl
  | cons tc t ih => simp [dispatchToolCall_id, ih]

/-- The first submission a stream starting with a requires-action event
records is that event's own batch, dispatched in request order. -/
theorem consumeStream_requiresAction_head (env : DispatchEnv) (svc : RunService)
    (threadId : String) (fuel : Nat) (runId : String) (tcs : List ToolCall)
    (rest : List RunEvent) :
    (consumeStream env svc threadId fuel
        (RunEvent.requiresAction runId (some tcs) :: rest)).submissions.head?
      = some (runId, tcs.map (dispatchToolCall env)) := by
  cases fuel <;> rfl

/-- Chunk-level refinement of one stream pass: the chunks a pass pushes are
exactly the delta fragments of its flattened event sequence, provided the
nested passes already refine. -/
theorem consumeEvents_chunks (env : DispatchEnv)
    (resumeS : String → List ToolOutput → StreamResult)
    (resumeF : String → List ToolOutput → List RunEvent)
    (h : ∀ runId outs,
      (resumeS runId outs).chunks = (resumeF runId outs).filterMap eventDelta) :
    ∀ events, (consumeEvents env resumeS events).chunks
      = (flattenEvents env resumeF events).filterMap eventDelta := by
  intro events
  induction events with
  | nil => rfl
  | cons e rest ih =>
    cases e with
    | messageDelta content =>
      cases hd : deltaValue content <;>
        simp [consumeEvents, flattenEvents, eventDelta, hd, ih]
    | requiresAction runId toolCalls =>
      cases toolCalls with
      | none => simp [consumeEvents, flattenEvents, eventDelta, ih]
      | some tcs => simp [consumeEvents, flattenEvents, eventDelta, ih, h]
    | lifecycle s => simp [consumeEvents, flattenEvents, eventDelta, ih]

/-- Chunk-level refinement of a whole run, at every resumption depth. -/
theorem consumeStream_chunks (env : DispatchEnv) (svc : RunService)
    (threadId : String) :
    ∀ (fuel : Nat) (events : List RunEvent),
      (consumeStream env svc threadId fuel events).chunks
        = (flattenRun env svc threadId fuel events).filterMap eventDelta := by
  intro fuel
  induction fuel with
  | zero =>
    intro events
    exact consumeEvents_chunks env _ _ (fun runId outs => rfl) events
  | succ f ih =>
    intro events
    exact consumeEvents_chunks env _ _ (fun runId outs => ih _) events

/-- A pure-delta stream is relayed verbatim by one pass: all fragments in
order, no submissions. -/
theorem consumeEvents_textDeltas (env : DispatchEnv)
    (resume : String → List ToolOutput → StreamResult) :
    ∀ vs : List String, (∀ v ∈ vs, v ≠ "") →
      consumeEvents env resume (vs.map textDeltaEvent)
        = { chunks := vs, submissions := [] } := by
  intro vs
  induction vs with
  | nil => intro _; rfl
  | cons v t ih =>
    intro hvs
    have hv : v ≠ "" := hvs v (List.mem_cons_self v t)
    have ht := ih (fun x hx => hvs x (List.mem_cons_of_mem v hx))
    simp [consumeEvents, textDeltaEvent, deltaValue, ht, hv]

/-- A trailing ignored lifecycle event does not change what a pass does. -/
theorem consumeEvents_lifecycle_ignored (env : DispatchEnv)
    (resume : String → List ToolOutput → StreamResult) (s : String) :
    ∀ events, consumeEvents env resume (events ++ [RunEvent.lifecycle s])
      = consumeEvents env resume events := by
  intro events
  induction events with
  | nil => rfl
  | cons e rest ih =>
    cases e with
    | messageDelta content =>
      cases hd : deltaValue content <;> simp [consumeEvents, hd, ih]
    | requiresAction runId toolCalls =>
      cases toolCalls <;> simp [consumeEvents, ih]
    | lifecycle s2 => simp [consumeEvents, ih]

/-- A dispatcher oracle whose `JSON.parse` always throws. -/
def stubDispatchEnv : DispatchEnv :=
  { jsonParse := fun _ => none, search := fun _ => "stub result" }

/-- A service whose resumed streams are empty. -/
def emptyService : RunService :=
  { submit := fun _ _ _ => [] }

/-- A recognized-tool call with unparsable arguments. -/
def callA : ToolCall :=
  { id := "call_1", function := { name := "search_legal", arguments := "notjson" } }

/-- A call for an unrecognized tool. -/
def callB : ToolCall :=
  { id := "call_2", function := { name := "other_tool", arguments := "{}" } }

/-! ### Claims about the orchestrator -/

/-- C1: a requires-action pause with K pending tool calls is answered by a
single batch submission of exactly K outputs, one per call id, in request
order (`Promise.all` keeps outputs in request order regardless of which
dispatched call completes first), with no id missing and — given the pause
point's ids are distinct — no duplicate id; every dispatched call
contributes an output (the dispatcher is total: it completes or fails
gracefully into an error output) before the batch is submitted. -/
theorem batchSubmissionComplete (env : DispatchEnv) (svc : RunService)
    (threadId : String) (fuel : Nat) (runId : String) (rest : List RunEvent)
    (tcs : List ToolCall) (hids : (tcs.map ToolCall.id).Nodup) :
    (consumeStream env svc threadId fuel
        (RunEvent.requiresAction runId (some tcs) :: rest)).submissions.head?
      = some (runId, tcs.map (dispatchToolCall env))
    ∧ (tcs.map (dispatchToolCall env)).length = tcs.length
    ∧ (tcs.map (dispatchToolCall env)).map ToolOutput.tool_call_id
        = tcs.map ToolCall.id
    ∧ ((tcs.map (dispatchToolCall env)).map ToolOutput.tool_call_id).Nodup
    ∧ ∀ tc ∈ tcs, ∃ o ∈ tcs.map (dispatchToolCall env), o.tool_call_id = tc.id := by
  refine ⟨consumeStream_requiresAction_head env svc threadId fuel runId tcs rest,
    List.length_map tcs _, dispatch_map_ids env tcs, ?_, ?_⟩
  · rw [dispatch_map_ids]
    exact hids
  · intro tc htc
    exact ⟨dispatchToolCall env tc, List.mem_map_of_mem _ htc, dispatchToolCall_id env tc⟩

/-- Witness for C1: a two-call pause point with distinct ids. -/
theorem batchSubmissionComplete_witness :
    (consumeStream stubDispatchEnv emptyService "t" 1
        (RunEvent.requiresAction "run_1" (some [callA, callB]) :: [])).submissions.head?
      = some ("run_1", [callA, callB].map (dispatchToolCall stubDispatchEnv))
    ∧ ∀ tc ∈ [callA, callB],
        ∃ o ∈ [callA, callB].map (dispatchToolCall stubDispatchEnv),
          o.tool_call_id = tc.id :=
  let h := batchSubmissionComplete stubDispatchEnv emptyService "t" 1 "run_1" []
    [callA, callB] (by decide)
  ⟨h.1, h.2.2.2.2⟩

/-- C2: every text delta is delivered to the sink in the exact order
received, across all recursive resumptions, with nothing dropped or
duplicated — the chunks of a whole run are exactly the delta fragments of
its arrival-order flattened event sequence; and a run of N well-formed
text-delta events with no tool calls delivers exactly those N fragments in
order with no submission. -/
theorem textDeltasDelivered (env : DispatchEnv) (svc : RunService)
    (threadId : String) (fuel : Nat) :
    (∀ events : List RunEvent,
      (consumeStream env svc threadId fuel events).chunks
        = (flattenRun env svc threadId fuel events).filterMap eventDelta)
    ∧ ∀ vs : List String, (∀ v ∈ vs, v ≠ "") →
        consumeStream env svc threadId fuel (vs.map textDeltaEvent)
          = { chunks := vs, submissions := [] } := by
  constructor
  · exact consumeStream_chunks env svc threadId fuel
  · intro vs hvs
    cases fuel with
    | zero => exact consumeEvents_textDeltas env _ vs hvs
    | succ f => exact consumeEvents_textDeltas env _ vs hvs

/-- Witness for C2: two concrete deltas arrive as two ordered chunks. -/
theorem textDeltasDelivered_witness :
    consumeStream stubDispatchEnv emptyService "t" 1
        (["Hei", ", verden"].map textDeltaEvent)
      = { chunks := ["Hei", ", verden"], submissions := [] } :=
  (textDeltasDelivered stubDispatchEnv emptyService "t" 1).2 ["Hei", ", verden"]
    (by decide)

/-- C3: a recognized tool call whose serialized arguments fail to parse
still produces an output — the fixed error string, under its own call id —
instead of an exception aborting the batch, and the pause point's batch is
still submitted with one entry per pending call id. -/
theorem invalidArgumentsRecovered (env : DispatchEnv) (tc : ToolCall)
    (hname : tc.function.name = "search_legal")
    (hparse : env.jsonParse tc.function.arguments = none) :
    dispatchToolCall env tc
      = { tool_call_id := tc.id, output := "Error: Invalid arguments." }
    ∧ ∀ (svc : RunService) (threadId : String) (fuel : Nat) (runId : String)
        (rest : List RunEvent) (tcs : List ToolCall), tc ∈ tcs →
        (consumeStream env svc threadId fuel
            (RunEvent.requiresAction runId (some tcs) :: rest)).submissions.head?
          = some (runId, tcs.map (dispatchToolCall env))
        ∧ ({ tool_call_id := tc.id, output := "Error: Invalid arguments." } : ToolOutput)
            ∈ tcs.map (dispatchToolCall env)
        ∧ (tcs.map (dispatchToolCall env)).map ToolOutput.tool_call_id
            = tcs.map ToolCall.id := by
  have hd : dispatchToolCall env tc
      = { tool_call_id := tc.id, output := "Error: Invalid arguments." } := by
    simp [dispatchToolCall, hname, hparse]
  refine ⟨hd, ?_⟩
  intro svc threadId fuel runId rest tcs htc
  refine ⟨consumeStream_requiresAction_head env svc threadId fuel runId tcs rest,
    ?_, dispatch_map_ids env tcs⟩
  rw [← hd]
  exact List.mem_map_of_mem _ htc

/-- Witness for C3: a concrete unparsable-argument call inside a batch. -/
theorem invalidArgumentsRecovered_witness :
    dispatchToolCall stubDispatchEnv callA
      = { tool_call_id := "call_1", output := "Error: Invalid arguments." }
    ∧ ({ tool_call_id := "call_1", output := "Error: Invalid arguments." } : ToolOutput)
        ∈ [callA, callB].map (dispatchToolCall stubDispatchEnv) :=
  let h := invalidArgumentsRecovered stubDispatchEnv callA rfl rfl
  ⟨h.1, (h.2 emptyService "t" 1 "run_1" [] [callA, callB]
    (List.mem_cons_self callA [callB])).2.1⟩

/-- C7: a tool call whose name is not the single recognized tool gets the
fixed unknown-tool error string as its output, under its own call id, and
the batch that resumes the run still contains an output for that call id. -/
theorem unknownToolRecovered (env : DispatchEnv) (tc : ToolCall)
    (hname : tc.function.name ≠ "search_legal") :
    dispatchToolCall env tc
      = { tool_call_id := tc.id, output := "Error: Unknown tool." }
    ∧ ∀ (svc : RunService) (threadId : String) (fuel : Nat) (runId : String)
        (rest : List RunEvent) (tcs : List ToolCall), tc ∈ tcs →
        (consumeStream env svc threadId fuel
            (RunEvent.requiresAction runId (some tcs) :: rest)).submissions.head?
          = some (runId, tcs.map (dispatchToolCall env))
        ∧ ({ tool_call_id := tc.id, output := "Error: Unknown tool." } : ToolOutput)
            ∈ tcs.map (dispatchToolCall env) := by
  have hd : dispatchToolCall env tc
      = { tool_call_id := tc.id, output := "Error: Unknown tool." } := by
    simp [dispatchToolCall, hname]
  refine ⟨hd, ?_⟩
  intro svc threadId fuel runId rest tcs htc
  refine ⟨consumeStream_requiresAction_head env svc threadId fuel runId tcs rest, ?_⟩
  rw [← hd]
  exact List.mem_map_of_mem _ htc

/-- Witness for C7: a concrete unrecognized-tool call inside a batch. -/
theorem unknownToolRecovered_witness :
    dispatchToolCall stubDispatchEnv callB
      = { tool_call_id := "call_2", output := "Error: Unknown tool." }
    ∧ ({ tool_call_id := "call_2", output := "Error: Unknown tool." } : ToolOutput)
        ∈ [callA, callB].map (dispatchToolCall stubDispatchEnv) :=
  let h := unknownToolRecovered stubDispatchEnv callB (by decide)
  ⟨h.1, (h.2 emptyService "t" 1 "run_1" [] [callA, callB]
    (List.mem_cons_of_mem callA (List.mem_cons_self callB []))).2⟩

/-- C9: a run terminating with a failed lifecycle event is silently ignored
by the event loop — consuming a stream that ends in `thread.run.failed`
yields exactly the result of consuming it without that event, and exactly
the result of the same stream ending in `thread.run.completed`: the loop
exits normally, the response stream is closed normally, and at the stream
level the caller cannot distinguish a failed run from a completed one. -/
theorem failedRunIgnored (env : DispatchEnv) (svc : RunService)
    (threadId : String) (fuel : Nat) (events : List RunEvent) :
    consumeStream env svc threadId fuel
        (events ++ [RunEvent.lifecycle "thread.run.failed"])
      = consumeStream env svc threadId fuel events
    ∧ consumeStream env svc threadId fuel
        (events ++ [RunEvent.lifecycle "thread.run.failed"])
      = consumeStream env svc threadId fuel
          (events ++ [RunEvent.lifecycle "thread.run.completed"]) := by
  have h1 : consumeStream env svc threadId fuel
      (events ++ [RunEvent.lifecycle "thread.run.failed"])
      = consumeStream env svc threadId fuel events := by
    cases fuel with
    | zero => exact consumeEvents_lifecycle_ignored env _ _ events
    | succ f => exact consumeEvents_lifecycle_ignored env _ _ events
  have h2 : consumeStream env svc threadId fuel
      (events ++ [RunEvent.lifecycle "thread.run.completed"])
      = consumeStream env svc threadId fuel events := by
    cases fuel with
    | zero => exact consumeEvents_lifecycle_ignored env _ _ events
    | succ f => exact consumeEvents_lifecycle_ignored env _ _ events
  exact ⟨h1, h1.trans h2.symm⟩

/-! ### Claim about the transport endpoint -/

/-- A concrete chat environment for the endpoint witness. -/
def chatEnvFixture : ChatEnv :=
  { assistantId := some "asst_1"
    freshThreadId := "thread_new"
    runStream := fun _ _ => [textDeltaEvent "Hei"]
    dispatchEnv := stubDispatchEnv
    svc := emptyService
    fuel := 1 }

/-- C6: a message submission without a thread id mints exactly one new
thread and returns its identifier in the response header next to the
streamed answer; a submission with a thread id reuses that thread — no
second thread is created — and returns the same identifier; a missing
message is a 400 error with no stream. -/
theorem threadCreationContract (env : ChatEnv) (m assistantId : String)
    (hm : m ≠ "") (ha : env.assistantId = some assistantId)
    (ha0 : assistantId ≠ "") :
    POST env { message := some m, threadId := none }
      = (ChatResponse.stream env.freshThreadId
          (consumeStream env.dispatchEnv env.svc env.freshThreadId env.fuel
            (env.runStream env.freshThreadId assistantId)).chunks, 1)
    ∧ (∀ t : String, t ≠ "" →
        POST env { message := some m, threadId := some t }
          = (ChatResponse.stream t
              (consumeStream env.dispatchEnv env.svc t env.fuel
                (env.runStream t assistantId)).chunks, 0))
    ∧ POST env { message := none, threadId := none }
        = (ChatResponse.jsonError "Message is required" 400, 0) := by
  refine ⟨?_, ?_, rfl⟩
  · simp [POST, hm, ha, ha0]
  · intro t ht
    simp [POST, hm, ha, ha0, ht]

/-- Witness for C6: a first turn mints the fresh thread id, the follow-up
with that id creates no second thread. -/
theorem threadCreationContract_witness :
    POST chatEnvFixture
        { message := some "Hva sier ekteskapsloven om gjeld?", threadId := none }
      = (ChatResponse.stream chatEnvFixture.freshThreadId
          (consumeStream chatEnvFixture.dispatchEnv chatEnvFixture.svc
            chatEnvFixture.freshThreadId chatEnvFixture.fuel
            (chatEnvFixture.runStream chatEnvFixture.freshThreadId "asst_1")).chunks, 1)
    ∧ POST chatEnvFixture
        { message := some "Og hva med felles bolig?", threadId := some "thread_new" }
      = (ChatResponse.stream "thread_new"
          (consumeStream chatEnvFixture.dispatchEnv chatEnvFixture.svc
            "thread_new" chatEnvFixture.fuel
            (chatEnvFixture.runStream "thread_new" "asst_1")).chunks, 0) :=
  ⟨(threadCreationContract chatEnvFixture "Hva sier ekteskapsloven om gjeld?"
      "asst_1" (by decide) rfl (by decide)).1,
   (threadCreationContract chatEnvFixture "Og hva med felles bolig?"
      "asst_1" (by decide) rfl (by decide)).2.1 "thread_new" (by decide)⟩

end SkilsmisseJus
